import Mathlib

/-!
Verification of the FastPolymarketSigner order-hashing and signing engine
(examples/sign_order.py) against its specification.

Bytes are modelled as lists of naturals below 256.  The keccak hash and the
secp256k1 key-to-public-key-to-address derivation are external cryptographic
primitives (eth_utils / coincurve); they enter the development as explicit
function parameters.  Python floats for price and size are modelled as exact
rationals; counterexamples below are chosen at dyadic inputs on which binary
floating point computes exactly, so they hold for the source as well.
-/

set_option maxRecDepth 20000

namespace FastSigner

abbrev Bytes := List Nat

/-- Big-endian encoding of a natural on w bytes, as Python int.to_bytes(w, 'big')
produces for values below 256 ^ w. -/
def beBytes : Nat → Nat → Bytes
| 0, _ => []
| w + 1, n => beBytes w (n / 256) ++ [n % 256]

/-- Big-endian value of a byte list. -/
def fromBE (l : Bytes) : Nat := l.foldl (fun a b => a * 256 + b) 0

/-- Byte sequence of a string; every protocol string in the source is ASCII, so
the code points are the UTF-8 bytes. -/
def asciiBytes (s : String) : Bytes := s.data.map Char.toNat

theorem length_beBytes (w n : Nat) : (beBytes w n).length = w := by
  induction w generalizing n with
  | zero => rfl
  | succ w ih => simp [beBytes, ih]

theorem beBytes_zero (w : Nat) : beBytes w 0 = List.replicate w 0 := by
  induction w with
  | zero => rfl
  | succ w ih => simp [beBytes, ih, List.replicate_succ']

theorem fromBE_snoc (l : Bytes) (b : Nat) : fromBE (l ++ [b]) = fromBE l * 256 + b := by
  simp [fromBE, List.foldl_append]

theorem fromBE_beBytes (w n : Nat) (h : n < 256 ^ w) : fromBE (beBytes w n) = n := by
  induction w generalizing n with
  | zero =>
    simp [pow_zero, Nat.lt_one_iff] at h
    simp [h, beBytes, fromBE]
  | succ w ih =>
    have hdiv : n / 256 < 256 ^ w := by
      rw [Nat.div_lt_iff_lt_mul (by norm_num)]
      calc n < 256 ^ (w + 1) := h
        _ = 256 ^ w * 256 := by rw [pow_succ]
    rw [beBytes, fromBE_snoc, ih _ hdiv, Nat.div_add_mod']

theorem beBytes_split (k w n : Nat) :
    beBytes (k + w) n = beBytes k (n / 256 ^ w) ++ beBytes w (n % 256 ^ w) := by
  induction w generalizing n with
  | zero => simp [beBytes]
  | succ w ih =>
    have h1 : n / 256 / 256 ^ w = n / 256 ^ (w + 1) := by
      rw [Nat.div_div_eq_div_mul, pow_succ, mul_comm]
    have h2 : n / 256 % 256 ^ w = n % 256 ^ (w + 1) / 256 := by
      rw [pow_succ, mul_comm, Nat.mod_mul_right_div_self]
    have h3 : n % 256 = n % 256 ^ (w + 1) % 256 := by
      rw [Nat.mod_mod_of_dvd n (dvd_pow_self 256 (Nat.succ_ne_zero w))]
    show beBytes (k + w + 1) n = _
    rw [beBytes, ih (n / 256), h1, h2, beBytes, List.append_assoc, h3]

theorem beBytes_leading_zeros (k w n : Nat) (h : n < 256 ^ w) :
    (beBytes (k + w) n).take k = List.replicate k 0 := by
  rw [beBytes_split, Nat.div_eq_of_lt h, beBytes_zero,
    List.take_left' (by simp [List.length_replicate])]

/-- Address words take the value below 2 ^ 160 packed right-aligned into 32
bytes, the first 12 bytes zero. -/
theorem beBytes_address_padding (n : Nat) (h : n < 2 ^ 160) :
    (beBytes 32 n).take 12 = List.replicate 12 0 := by
  have h' : n < 256 ^ 20 := by
    calc n < 2 ^ 160 := h
      _ = 256 ^ 20 := by norm_num
  exact beBytes_leading_zeros 12 20 n h'

theorem pow256_32 : (256 : Nat) ^ 32 = 2 ^ 256 := by norm_num

/-- Mirror of fromBE_beBytes at the 32-byte width used throughout. -/
theorem fromBE_word (n : Nat) (h : n < 2 ^ 256) : fromBE (beBytes 32 n) = n :=
  fromBE_beBytes 32 n (by rw [pow256_32]; exact h)

/-! ### Constants of the source (sign_order.py, module level) -/

def CHAIN_ID : Nat := 137

/-- Numeric value of the default CTF Exchange contract address from the source,
0x4bFb41d5B3570DeFd03C39a9A4D8dE6Bd8B8982E (the env override is out of scope). -/
def EXCHANGE_CONTRACT : Nat := 0x4bFb41d5B3570DeFd03C39a9A4D8dE6Bd8B8982E

def domainTypeString : String :=
  "EIP712Domain(string name,string version,uint256 chainId,address verifyingContract)"

def protocolName : String := "Polymarket CTF Exchange"

def protocolVersion : String := "1"

/-- Order struct type string of the source (line 57), with the feeRateBps field. -/
def orderTypeString : String :=
  "Order(uint256 salt,address maker,address signer,address taker,uint256 tokenId,uint256 makerAmount,uint256 takerAmount,uint256 expiration,uint256 nonce,uint256 feeRateBps,uint8 side,uint8 signatureType)"

/-- Domain separator precomputed by the constructor (source lines 43-53):
keccak of the domain type hash, the name hash, the version hash, the chain id
word and the right-aligned verifying-contract word. -/
def domain_separator (keccak : Bytes → Bytes) : Bytes :=
  keccak (keccak (asciiBytes domainTypeString) ++
    (keccak (asciiBytes protocolName) ++
    (keccak (asciiBytes protocolVersion) ++
    (beBytes 32 CHAIN_ID ++
    beBytes 32 EXCHANGE_CONTRACT))))

/-! ### Engine state (FastPolymarketSigner.__init__) -/

structure Engine where
  privateKey : Nat
  signerAddress : Nat
  makerAddress : Nat
  signatureType : Nat
deriving DecidableEq

/-- Address-resolution logic of FastPolymarketSigner.__init__ (source lines
29-40).  The signer address is derived from the private key (keccak of the
uncompressed public key, low 20 bytes), abstracted as addrOfKey.  The maker
address is the funder whenever one is supplied (none covers Python None and
the empty string, both falsy), otherwise the signer; to_checksum_address only
re-cases the hex text and leaves the address value unchanged.  The
signature_type tag is stored unchanged and plays no role in the resolution. -/
def mkEngine (addrOfKey : Nat → Nat) (privateKey : Nat) (funder : Option Nat)
    (signatureType : Nat) : Engine :=
  let signer := addrOfKey privateKey
  { privateKey := privateKey
    signerAddress := signer
    makerAddress := funder.getD signer
    signatureType := signatureType }

/-! ### Order arguments and side handling (sign_order, lines 107-122) -/

/-- Python value passed as OrderArgs.side: an int, a string, or None. -/
inductive PyVal where
| int (n : Int)
| str (s : String)
| pyNone
deriving DecidableEq

/-- Python str.upper restricted to ASCII, which covers every side value the
source compares; Unicode-only case mappings do not affect the comparison with
the ASCII literal BUY. -/
def asciiUpper (s : String) : String :=
  ⟨s.data.map (fun c => if 97 ≤ c.toNat ∧ c.toNat ≤ 122 then Char.ofNat (c.toNat - 32) else c)⟩

/-- Side test of the source (line 111): order_args.side == 0 or
str(order_args.side).upper() == "BUY".  An int compares equal to 0 exactly
when it is 0; str() of an int or of None is modelled faithfully even though
it never uppercases to "BUY". -/
def isBuySide : PyVal → Bool
| .int n => n == 0 || asciiUpper (toString n) == "BUY"
| .str s => asciiUpper s == "BUY"
| .pyNone => asciiUpper "None" == "BUY"

structure OrderArgs where
  price : ℚ
  size : ℚ
  side : PyVal
  token_id : Nat

/-- Python int() applied to a real value: truncation toward zero. -/
def pyInt (q : ℚ) : Int := if 0 ≤ q then ⌊q⌋ else -⌊-q⌋

/-- Scaled amounts of sign_order (source lines 111-120): for a buy,
maker pays int(size * price * 1e6) and taker int(size * 1e6); for a sell the
two computations swap. -/
def orderAmounts (price size : ℚ) (buy : Bool) : Int × Int :=
  if buy then (pyInt (size * price * 1000000), pyInt (size * 1000000))
  else (pyInt (size * 1000000), pyInt (size * price * 1000000))

/-- Range on which every int.to_bytes(32, 'big') call of sign_order succeeds;
outside it Python raises OverflowError. -/
def packable (mA tA : Int) (salt tok st : Nat) : Prop :=
  0 ≤ mA ∧ mA < 2 ^ 256 ∧ 0 ≤ tA ∧ tA < 2 ^ 256 ∧
  salt < 2 ^ 256 ∧ tok < 2 ^ 256 ∧ st < 2 ^ 256

instance (mA tA : Int) (salt tok st : Nat) : Decidable (packable mA tA salt tok st) := by
  unfold packable; infer_instance

/-- Manual packing of the order struct (source lines 125-139): the order type
hash followed by the twelve 32-byte words in declaration order. -/
def encodedOrder (keccak : Bytes → Bytes) (e : Engine)
    (salt tokenId makerAmt takerAmt sideInt : Nat) : Bytes :=
  keccak (asciiBytes orderTypeString) ++
  (beBytes 32 salt ++
  (beBytes 32 e.makerAddress ++
  (beBytes 32 e.signerAddress ++
  (beBytes 32 0 ++
  (beBytes 32 tokenId ++
  (beBytes 32 makerAmt ++
  (beBytes 32 takerAmt ++
  (beBytes 32 0 ++
  (beBytes 32 0 ++
  (beBytes 32 0 ++
  (beBytes 32 sideInt ++
  beBytes 32 e.signatureType)))))))))))

/-- Final digest of sign_order (source line 142):
keccak of 0x19 0x01, the domain separator and the struct hash. -/
def fastDigest (keccak : Bytes → Bytes) (e : Engine)
    (salt tokenId makerAmt takerAmt sideInt : Nat) : Bytes :=
  keccak ([0x19, 0x01] ++
    (domain_separator keccak ++
    keccak (encodedOrder keccak e salt tokenId makerAmt takerAmt sideInt)))

/-- Digest signed for a given order intent: side and amounts resolved from the
arguments as in sign_order. -/
def orderDigest (keccak : Bytes → Bytes) (e : Engine) (a : OrderArgs) (salt : Nat) : Bytes :=
  fastDigest keccak e salt a.token_id
    (orderAmounts a.price a.size (isBuySide a.side)).1.toNat
    (orderAmounts a.price a.size (isBuySide a.side)).2.toNat
    (if isBuySide a.side then 0 else 1)

/-! ### Recoverable signature (coincurve sign_recoverable, idealized) -/

/-- Idealized recoverable ECDSA signature of the curve primitive: 32 bytes
standing for r, bound to the digest, 32 bytes standing for s, bound to the
key, and the raw recovery id (0 or 1 on secp256k1), which enters as a
parameter of the signing call. -/
def signRecoverable (privateKey : Nat) (digest : Bytes) (rawRecId : Nat) : Bytes :=
  digest ++ (beBytes 32 privateKey ++ [rawRecId])

/-- V-value fix of sign_order (source lines 148-150): when the final byte is
below 27 it is increased by 27. -/
def normalizeV (sig : Bytes) : Bytes :=
  if sig.getD 64 0 < 27 then sig.set 64 (sig.getD 64 0 + 27) else sig

/-- Idealized reference recovery (eth_account Account.recover_message): a
65-byte signature whose v byte is 27 or 28 and whose r part is bound to the
digest being verified recovers the address of the embedded key; anything else
recovers no address. -/
def recoverAddress (addrOfKey : Nat → Nat) (digest : Bytes) (sig : Bytes) : Option Nat :=
  if sig.length = 65 ∧ (sig.getD 64 0 = 27 ∨ sig.getD 64 0 = 28) ∧ sig.take 32 = digest
  then some (addrOfKey (fromBE ((sig.drop 32).take 32)))
  else Option.none

/-! ### Signed payload (sign_order, lines 155-169) -/

/-- Output dictionary of sign_order.  maker, signer and taker hold address
values (the source holds their checksummed hex text); the remaining fields
are the strings the source produces. -/
structure SignedPayload where
  salt : Nat
  maker : Nat
  signer : Nat
  taker : Nat
  tokenId : String
  makerAmount : String
  takerAmount : String
  expiration : String
  nonce : String
  feeRateBps : String
  side : String
  signatureType : Nat
  signature : Bytes
deriving DecidableEq

/-- sign_order (source lines 107-169).  The salt comes from the wall clock and
the raw recovery id from the curve primitive; both enter as parameters.  An
int.to_bytes call outside [0, 2^256) raises OverflowError, modelled as none;
no other validation is performed by the source. -/
def sign_order (keccak : Bytes → Bytes) (e : Engine) (a : OrderArgs)
    (salt rawRecId : Nat) : Option SignedPayload :=
  let buy := isBuySide a.side
  let amts := orderAmounts a.price a.size buy
  if packable amts.1 amts.2 salt a.token_id e.signatureType then
    some { salt := salt
           maker := e.makerAddress
           signer := e.signerAddress
           taker := 0
           tokenId := toString a.token_id
           makerAmount := toString amts.1
           takerAmount := toString amts.2
           expiration := "0"
           nonce := "0"
           feeRateBps := "0"
           side := if buy then "BUY" else "SELL"
           signatureType := e.signatureType
           signature := normalizeV (signRecoverable e.privateKey (orderDigest keccak e a salt) rawRecId) }
  else Option.none

/-! ### Reference structured-data encoder

The fast path is claimed to refine a standards-compliant structured-data
(EIP-712) encoder; the reference below is the second side of that refinement
and is written from the specification's description of the encoder, not from
the fast path. -/

/-- Field types occurring in the domain and Order schemas. -/
inductive ETy where
| u256
| u8
| addr
| strT
deriving DecidableEq

/-- Field values of a structured message. -/
inductive EVal where
| num (n : Nat)
| text (s : String)
deriving DecidableEq

def tyName : ETy → String
| .u256 => "uint256"
| .u8 => "uint8"
| .addr => "address"
| .strT => "string"

/-- Modelled from the spec: the type string a standards-compliant
structured-data encoder derives from a struct schema, the struct name followed
by the parenthesized comma-separated field declarations. -/
def typeStringOf (name : String) (fields : List (String × ETy)) : String :=
  name ++ "(" ++ String.intercalate "," (fields.map (fun f => tyName f.2 ++ " " ++ f.1)) ++ ")"

/-- Modelled from the spec: atomic-value encoding of the reference encoder;
uint256 and uint8 become 32-byte big-endian words, addresses are right-aligned
in a 32-byte word, strings are replaced by the hash of their bytes. -/
def encodeValue (keccak : Bytes → Bytes) : ETy → EVal → Bytes
| .u256, .num n => beBytes 32 n
| .u8, .num n => beBytes 32 n
| .addr, .num n => beBytes 32 n
| .strT, .text s => keccak (asciiBytes s)
| _, _ => []

/-- Modelled from the spec: hashStruct of the reference encoder, the hash of
the schema-derived type string's hash followed by the encoded field values in
schema order. -/
def hashStruct (keccak : Bytes → Bytes) (name : String)
    (fields : List (String × ETy × EVal)) : Bytes :=
  keccak (keccak (asciiBytes (typeStringOf name (fields.map (fun f => (f.1, f.2.1))))) ++
    (fields.map (fun f => encodeValue keccak f.2.1 f.2.2)).flatten)

/-- The domain of the source, presented to the reference encoder
(verify_hash.py lines 82-87 and sign_order.py lines 85). -/
def domainFields : List (String × ETy × EVal) :=
  [("name", .strT, .text protocolName),
   ("version", .strT, .text protocolVersion),
   ("chainId", .u256, .num CHAIN_ID),
   ("verifyingContract", .addr, .num EXCHANGE_CONTRACT)]

/-- Order schema and message values presented to the reference encoder, the
fee field name parametrized so that the mismatch-injection scenario of the
specification can supply a differently-named fee field; the source hardcodes
feeRateBps (sign_order.py line 83). -/
def orderFields (feeName : String)
    (salt maker signerA tokenId makerAmt takerAmt sideInt sigType : Nat) :
    List (String × ETy × EVal) :=
  [("salt", .u256, .num salt),
   ("maker", .addr, .num maker),
   ("signer", .addr, .num signerA),
   ("taker", .addr, .num 0),
   ("tokenId", .u256, .num tokenId),
   ("makerAmount", .u256, .num makerAmt),
   ("takerAmount", .u256, .num takerAmt),
   ("expiration", .u256, .num 0),
   ("nonce", .u256, .num 0),
   (feeName, .u256, .num 0),
   ("side", .u8, .num sideInt),
   ("signatureType", .u8, .num sigType)]

/-- Modelled from the spec: the full reference digest, the hash of 0x19 0x01,
the domain struct hash and the Order struct hash. -/
def referenceDigest (keccak : Bytes → Bytes) (feeName : String)
    (salt maker signerA tokenId makerAmt takerAmt sideInt sigType : Nat) : Bytes :=
  keccak ([0x19, 0x01] ++
    (hashStruct keccak "EIP712Domain" domainFields ++
    hashStruct keccak "Order"
      (orderFields feeName salt maker signerA tokenId makerAmt takerAmt sideInt sigType)))

/-! ### Compatibility self-check (FastPolymarketSigner._verify_compatibility) -/

/-- Synthetic order of the startup self-check (source line 70). -/
def dummyArgs : OrderArgs :=
  { price := 1 / 2, size := 1, side := .str "BUY", token_id := 123456789 }

/-- Reference digest the self-check recovers against (source lines 76-97): the
schema of orderFields with the message rebuilt from the dummy arguments and
the fast payload's salt. -/
def selfCheckRefDigest (keccak : Bytes → Bytes) (e : Engine) (feeName : String)
    (salt : Nat) : Bytes :=
  referenceDigest keccak feeName salt e.makerAddress e.signerAddress
    dummyArgs.token_id
    (pyInt (dummyArgs.size * dummyArgs.price * 1000000)).toNat
    (pyInt (dummyArgs.size * 1000000)).toNat
    0 e.signatureType

/-- Fast digest of the self-check's synthetic order. -/
def selfCheckFastDigest (keccak : Bytes → Bytes) (e : Engine) (salt : Nat) : Bytes :=
  orderDigest keccak e dummyArgs salt

/-- The startup self-check (source lines 67-105): sign the synthetic order via
the fast path, recover the signer address from the fast signature with the
reference encoder's digest, and fail on any outcome other than the configured
signer address.  The source raises RuntimeError, modelled as Except.error. -/
def verify_compatibility (keccak : Bytes → Bytes) (addrOfKey : Nat → Nat)
    (e : Engine) (feeName : String) (salt rawRecId : Nat) : Except String Unit :=
  match sign_order keccak e dummyArgs salt rawRecId with
  | Option.none => Except.error "OverflowError"
  | some payload =>
    match recoverAddress addrOfKey (selfCheckRefDigest keccak e feeName payload.salt)
        payload.signature with
    | some a =>
      if a = e.signerAddress then Except.ok ()
      else Except.error "CRITICAL: Hash mismatch"
    | Option.none => Except.error "CRITICAL: Hash mismatch"

/-- Construction of the engine (source lines 29-65): the state is built and the
self-check runs before any instance is returned; an error propagates out of the
constructor and no engine value exists. -/
def mkEngineChecked (keccak : Bytes → Bytes) (addrOfKey : Nat → Nat)
    (privateKey : Nat) (funder : Option Nat) (signatureType : Nat)
    (feeName : String) (salt rawRecId : Nat) : Except String Engine :=
  let e := mkEngine addrOfKey privateKey funder signatureType
  match verify_compatibility keccak addrOfKey e feeName salt rawRecId with
  | Except.ok _ => Except.ok e
  | Except.error m => Except.error m

/-! ### Concrete instances for witnesses -/

/-- Concrete stand-in hash with 32-byte output used to instantiate the keccak
parameter in closed statements; it distinguishes every pair of inputs the
statements compare. -/
def mockKeccak (l : Bytes) : Bytes :=
  List.replicate 31 0 ++ [l.foldl (fun a b => (a * 31 + b) % 256) (l.length % 256)]

theorem mockKeccak_length (l : Bytes) : (mockKeccak l).length = 32 := by
  simp [mockKeccak]

/-- Concrete engine state for closed statements. -/
def testEngine : Engine :=
  { privateKey := 1, signerAddress := 2, makerAddress := 3, signatureType := 0 }

/-! ### Structural lemmas about signatures -/

theorem getD64 (d rest : Bytes) (x : Nat) (hd : d.length = 32) (hrest : rest.length = 32) :
    (d ++ (rest ++ [x])).getD 64 0 = x := by
  rw [List.getD_eq_getElem?_getD, List.getElem?_append_right (by omega),
    List.getElem?_append_right (by omega), hd, hrest]
  norm_num

theorem set64 (d rest : Bytes) (x y : Nat) (hd : d.length = 32) (hrest : rest.length = 32) :
    (d ++ (rest ++ [x])).set 64 y = d ++ (rest ++ [y]) := by
  rw [List.set_append_right _ _ (by omega), List.set_append_right _ _ (by omega), hd, hrest]
  norm_num

/-- Shape of the signature sign_order emits: the raw recovery id below 27 is
shifted into the Ethereum 27/28 convention in the final byte. -/
theorem normalizeV_signRecoverable (key : Nat) (d : Bytes) (raw : Nat)
    (hd : d.length = 32) (hraw : raw < 27) :
    normalizeV (signRecoverable key d raw) = d ++ (beBytes 32 key ++ [raw + 27]) := by
  unfold normalizeV signRecoverable
  rw [getD64 d _ raw hd (length_beBytes 32 key), if_pos hraw,
    set64 d _ raw (raw + 27) hd (length_beBytes 32 key)]

/-- Whatever the v normalization does, the first 32 bytes of the signature stay
the digest the fast path computed. -/
theorem normalizeV_take32 (d rest : Bytes) (hd : d.length = 32) :
    (normalizeV (d ++ rest)).take 32 = d := by
  unfold normalizeV
  split
  · rw [List.set_append_right _ _ (by omega), List.take_left' hd]
  · exact List.take_left' hd

/-- A signature produced over one digest never recovers against a different
digest in the idealized recovery model. -/
theorem recoverAddress_none_of_digest_ne (addrOfKey : Nat → Nat) (ref d : Bytes)
    (key raw : Nat) (hd : d.length = 32) (hne : ref ≠ d) :
    recoverAddress addrOfKey ref (normalizeV (signRecoverable key d raw)) = Option.none := by
  rw [signRecoverable, recoverAddress, if_neg]
  rintro ⟨-, -, htake⟩
  rw [normalizeV_take32 d _ hd] at htake
  exact hne htake.symm

/-- Recovery roundtrip: a normalized signature over a digest recovers the
address of the signing key against that digest. -/
theorem recover_normalize_sign (addrOfKey : Nat → Nat) (key : Nat) (d : Bytes) (raw : Nat)
    (hd : d.length = 32) (hkey : key < 2 ^ 256) (hraw : raw < 2) :
    recoverAddress addrOfKey d (normalizeV (signRecoverable key d raw)) = some (addrOfKey key) := by
  rw [normalizeV_signRecoverable key d raw hd (by omega), recoverAddress, if_pos]
  · rw [List.drop_left' hd, List.take_left' (length_beBytes 32 key), fromBE_word key hkey]
  · refine ⟨by simp [hd, length_beBytes], ?_, List.take_left' hd⟩
    rw [getD64 d _ (raw + 27) hd (length_beBytes 32 key)]
    omega

/-- Evaluation rule for sign_order: once the side-resolved amounts are known
and in the packable range, the call returns the payload the source builds. -/
theorem sign_order_eval (keccak : Bytes → Bytes) (e : Engine) (a : OrderArgs)
    (salt raw : Nat) (mI tI : Int)
    (hamt : orderAmounts a.price a.size (isBuySide a.side) = (mI, tI))
    (hg : packable mI tI salt a.token_id e.signatureType) :
    sign_order keccak e a salt raw = some
      { salt := salt
        maker := e.makerAddress
        signer := e.signerAddress
        taker := 0
        tokenId := toString a.token_id
        makerAmount := toString mI
        takerAmount := toString tI
        expiration := "0"
        nonce := "0"
        feeRateBps := "0"
        side := if isBuySide a.side then "BUY" else "SELL"
        signatureType := e.signatureType
        signature := normalizeV (signRecoverable e.privateKey (orderDigest keccak e a salt) raw) } := by
  simp [sign_order, hamt, hg]

/-! ### The reference encoder agrees with the precomputed constants -/

/-- The schema-derived domain type string is the literal the source hashes. -/
theorem typeStringOf_domain :
    typeStringOf "EIP712Domain" (domainFields.map (fun f => (f.1, f.2.1))) = domainTypeString := by
  rfl

/-- The schema-derived Order type string with the feeRateBps field is the
literal the source hashes (line 57). -/
theorem typeStringOf_order (salt maker signerA tokenId makerAmt takerAmt sideInt sigType : Nat) :
    typeStringOf "Order"
      ((orderFields "feeRateBps" salt maker signerA tokenId makerAmt takerAmt sideInt sigType).map
        (fun f => (f.1, f.2.1))) = orderTypeString := by
  rfl

/-- The reference hash of the domain struct is the domain separator the
constructor precomputes. -/
theorem hashStruct_domain (keccak : Bytes → Bytes) :
    hashStruct keccak "EIP712Domain" domainFields = domain_separator keccak := by
  simp only [hashStruct, domainFields, List.map_cons, List.map_nil, encodeValue,
    List.flatten_cons, List.flatten_nil, List.append_nil, domain_separator]
  rfl

/-- The reference hash of the Order struct is the keccak of the fast path's
manual packing. -/
theorem hashStruct_order (keccak : Bytes → Bytes) (e : Engine)
    (salt tokenId makerAmt takerAmt sideInt : Nat) :
    hashStruct keccak "Order"
      (orderFields "feeRateBps" salt e.makerAddress e.signerAddress tokenId makerAmt takerAmt
        sideInt e.signatureType)
      = keccak (encodedOrder keccak e salt tokenId makerAmt takerAmt sideInt) := by
  simp only [hashStruct, orderFields, List.map_cons, List.map_nil, encodeValue,
    List.flatten_cons, List.flatten_nil, List.append_nil, encodedOrder]
  rfl

/-- The digest length the abstract keccak guarantees carries over to order
digests. -/
theorem orderDigest_length (keccak : Bytes → Bytes) (e : Engine) (a : OrderArgs)
    (salt : Nat) (hK32 : ∀ l, (keccak l).length = 32) :
    (orderDigest keccak e a salt).length = 32 := by
  simp only [orderDigest, fastDigest]
  exact hK32 _

/-- Evaluation of the self-check's fast digest: the synthetic order resolves
to the buy side with amounts 500000 and 1000000. -/
theorem orderDigest_dummy (keccak : Bytes → Bytes) (e : Engine) (salt : Nat) :
    orderDigest keccak e dummyArgs salt = fastDigest keccak e salt 123456789 500000 1000000 0 := by
  have h1 : isBuySide dummyArgs.side = true := by decide
  have h2 : orderAmounts dummyArgs.price dummyArgs.size true = (500000, 1000000) := by
    norm_num [dummyArgs, orderAmounts, pyInt]
  simp only [orderDigest, h1, h2, if_true]
  rfl

/-- Evaluation of the self-check's reference digest at its numeric message. -/
theorem selfCheckRefDigest_eval (keccak : Bytes → Bytes) (e : Engine)
    (feeName : String) (salt : Nat) :
    selfCheckRefDigest keccak e feeName salt
      = referenceDigest keccak feeName salt e.makerAddress e.signerAddress
        123456789 500000 1000000 0 e.signatureType := by
  have hm : (pyInt (dummyArgs.size * dummyArgs.price * 1000000)).toNat = 500000 := by
    rw [show pyInt (dummyArgs.size * dummyArgs.price * 1000000) = 500000 from by
      norm_num [dummyArgs, pyInt]]
    rfl
  have ht : (pyInt (dummyArgs.size * 1000000)).toNat = 1000000 := by
    rw [show pyInt (dummyArgs.size * 1000000) = 1000000 from by norm_num [dummyArgs, pyInt]]
    rfl
  simp only [selfCheckRefDigest, hm, ht]
  norm_num [dummyArgs]

/-! ### Claim theorems -/

/-- C1: for every order intent with price strictly between 0 and 1, size
positive, either side, and any asset id below 2 ^ 256, the digest of the fast
path's manual packing equals the digest of the standards-compliant reference
structured-data encoder configured with the identical domain and Order
schema. -/
theorem C1_digest_equivalence (keccak : Bytes → Bytes) (e : Engine)
    (price size : ℚ) (buy : Bool) (tokenId salt : Nat)
    (hp0 : 0 < price) (hp1 : price < 1) (hs0 : 0 < size) (htok : tokenId < 2 ^ 256) :
    fastDigest keccak e salt tokenId (orderAmounts price size buy).1.toNat
        (orderAmounts price size buy).2.toNat (if buy then 0 else 1)
      = referenceDigest keccak "feeRateBps" salt e.makerAddress e.signerAddress tokenId
        (orderAmounts price size buy).1.toNat (orderAmounts price size buy).2.toNat
        (if buy then 0 else 1) e.signatureType := by
  rw [referenceDigest, hashStruct_domain, hashStruct_order, fastDigest]

theorem C1_digest_equivalence_witness :
    (0 : ℚ) < 1 / 2 ∧ (1 : ℚ) / 2 < 1 ∧ (0 : ℚ) < 10 ∧ 2 ^ 256 - 1 < 2 ^ 256 ∧
    fastDigest mockKeccak testEngine 9 (2 ^ 256 - 1) (orderAmounts (1 / 2) 10 true).1.toNat
        (orderAmounts (1 / 2) 10 true).2.toNat (if true then 0 else 1)
      = referenceDigest mockKeccak "feeRateBps" 9 testEngine.makerAddress
        testEngine.signerAddress (2 ^ 256 - 1) (orderAmounts (1 / 2) 10 true).1.toNat
        (orderAmounts (1 / 2) 10 true).2.toNat (if true then 0 else 1)
        testEngine.signatureType :=
  ⟨by norm_num, by norm_num, by norm_num, by norm_num,
    C1_digest_equivalence mockKeccak testEngine (1 / 2) 10 true (2 ^ 256 - 1) 9
      (by norm_num) (by norm_num) (by norm_num) (by norm_num)⟩

/-- C2: the final digest is keccak of 0x19 0x01, the domain separator and the
struct hash; the struct preimage is the order type hash followed by exactly
the twelve 32-byte words salt, maker, signer, taker, tokenId, makerAmount,
takerAmount, expiration, nonce, feeRateBps, side, signatureType in that order,
integers big-endian, addresses left-padded with 12 zero bytes, 416 bytes in
total. -/
theorem C2_struct_layout (keccak : Bytes → Bytes) (e : Engine)
    (salt tokenId mA tA sideInt : Nat)
    (hK32 : ∀ l, (keccak l).length = 32)
    (hsalt : salt < 2 ^ 256) (htok : tokenId < 2 ^ 256) (hmA : mA < 2 ^ 256)
    (htA : tA < 2 ^ 256) (hside : sideInt < 2 ^ 256) (hst : e.signatureType < 2 ^ 256)
    (hmaker : e.makerAddress < 2 ^ 160) (hsigner : e.signerAddress < 2 ^ 160) :
    fastDigest keccak e salt tokenId mA tA sideInt
      = keccak ([0x19, 0x01] ++ (domain_separator keccak ++
          keccak (encodedOrder keccak e salt tokenId mA tA sideInt)))
    ∧ encodedOrder keccak e salt tokenId mA tA sideInt
      = keccak (asciiBytes orderTypeString) ++
        [beBytes 32 salt, beBytes 32 e.makerAddress, beBytes 32 e.signerAddress,
         beBytes 32 0, beBytes 32 tokenId, beBytes 32 mA, beBytes 32 tA,
         beBytes 32 0, beBytes 32 0, beBytes 32 0, beBytes 32 sideInt,
         beBytes 32 e.signatureType].flatten
    ∧ (encodedOrder keccak e salt tokenId mA tA sideInt).length = 13 * 32
    ∧ (∀ f : Nat, (beBytes 32 f).length = 32)
    ∧ fromBE (beBytes 32 salt) = salt
    ∧ fromBE (beBytes 32 e.makerAddress) = e.makerAddress
    ∧ fromBE (beBytes 32 e.signerAddress) = e.signerAddress
    ∧ fromBE (beBytes 32 0) = 0
    ∧ fromBE (beBytes 32 tokenId) = tokenId
    ∧ fromBE (beBytes 32 mA) = mA
    ∧ fromBE (beBytes 32 tA) = tA
    ∧ fromBE (beBytes 32 sideInt) = sideInt
    ∧ fromBE (beBytes 32 e.signatureType) = e.signatureType
    ∧ (beBytes 32 e.makerAddress).take 12 = List.replicate 12 0
    ∧ (beBytes 32 e.signerAddress).take 12 = List.replicate 12 0 := by
  refine ⟨rfl, by simp [encodedOrder], ?_, fun f => length_beBytes 32 f,
    fromBE_word salt hsalt, fromBE_word _ (lt_trans hmaker (by norm_num)),
    fromBE_word _ (lt_trans hsigner (by norm_num)), fromBE_word 0 (by norm_num),
    fromBE_word tokenId htok, fromBE_word mA hmA, fromBE_word tA htA,
    fromBE_word sideInt hside, fromBE_word _ hst,
    beBytes_address_padding _ hmaker, beBytes_address_padding _ hsigner⟩
  simp [encodedOrder, length_beBytes, hK32]

theorem C2_struct_layout_witness :
    (∀ l, (mockKeccak l).length = 32) ∧ (7 : Nat) < 2 ^ 256 ∧ (5 : Nat) < 2 ^ 256 ∧
    (350 : Nat) < 2 ^ 256 ∧ (500 : Nat) < 2 ^ 256 ∧ (0 : Nat) < 2 ^ 256 ∧
    testEngine.signatureType < 2 ^ 256 ∧ testEngine.makerAddress < 2 ^ 160 ∧
    testEngine.signerAddress < 2 ^ 160 ∧
    (encodedOrder mockKeccak testEngine 7 5 350 500 0).length = 13 * 32 :=
  ⟨mockKeccak_length, by norm_num, by norm_num, by norm_num, by norm_num, by norm_num,
    by norm_num [testEngine], by norm_num [testEngine], by norm_num [testEngine],
    (C2_struct_layout mockKeccak testEngine 7 5 350 500 0 mockKeccak_length
      (by norm_num) (by norm_num) (by norm_num) (by norm_num) (by norm_num)
      (by norm_num [testEngine]) (by norm_num [testEngine])
      (by norm_num [testEngine])).2.2.1⟩

/-- C4 counterexample: a funder supplied together with the direct signature
type (tag 0) still yields maker = funder, not maker = signer, refuting the
claim's "in every other case the maker address equals the derived signer
address". -/
theorem C4_counterexample :
    (mkEngine (fun n => n) 7 (some 5) 0).makerAddress = 5
    ∧ (mkEngine (fun n => n) 7 (some 5) 0).signerAddress = 7
    ∧ (5 : Nat) ≠ 7 := by
  refine ⟨rfl, rfl, by norm_num⟩

/-- C4 amended: the maker address equals the funder address whenever a funder
is present, regardless of the signature-type tag; only when no funder is
supplied does the maker address equal the derived signer address. -/
theorem C4_maker_resolution (addrOfKey : Nat → Nat) (key f st st' : Nat) :
    (mkEngine addrOfKey key (some f) st).makerAddress = f
    ∧ (mkEngine addrOfKey key Option.none st).makerAddress
        = (mkEngine addrOfKey key Option.none st).signerAddress
    ∧ (mkEngine addrOfKey key Option.none st).signerAddress = addrOfKey key
    ∧ (mkEngine addrOfKey key (some f) st).makerAddress
        = (mkEngine addrOfKey key (some f) st').makerAddress := by
  exact ⟨rfl, rfl, rfl, rfl⟩

/-- C3 counterexample: at price 1/1048576 (the dyadic 2 ^ -20, on which binary
floating point computes size * price * 1e6 = 46875/16384 exactly) and size 3,
sign_order emits makerAmount "2" while round(size * price * 10 ^ 6) = 3: the
code truncates toward zero, it does not round. -/
theorem C3_counterexample :
    (sign_order mockKeccak testEngine
        { price := 1 / 1048576, size := 3, side := .str "BUY", token_id := 5 } 0 0).map
      SignedPayload.makerAmount = some "2"
    ∧ round ((3 : ℚ) * (1 / 1048576) * 1000000) = 3
    ∧ ("2" : String) ≠ "3" := by
  have hamt : orderAmounts (1 / 1048576 : ℚ) 3 (isBuySide (.str "BUY")) = (2, 3000000) := by
    rw [show isBuySide (PyVal.str "BUY") = true from by decide]
    norm_num [orderAmounts, pyInt]
  rw [sign_order_eval mockKeccak testEngine _ 0 0 2 3000000 hamt (by decide)]
  refine ⟨by decide, ?_, by decide⟩
  norm_num [round_eq]

/-- C3 amended: with side Buy, makerAmount is the truncation toward zero (the
Python int()) of size * price * 10 ^ 6 and takerAmount the truncation of
size * 10 ^ 6; with side Sell the two amounts swap roles; in particular for
price 0.5 and size 10, Buy yields "5000000"/"10000000" and Sell
"10000000"/"5000000". -/
theorem C3_amounts_truncation (keccak : Bytes → Bytes) (e : Engine)
    (price size : ℚ) (tok salt raw : Nat)
    (hb : packable (orderAmounts price size true).1 (orderAmounts price size true).2
      salt tok e.signatureType)
    (hs : packable (orderAmounts price size false).1 (orderAmounts price size false).2
      salt tok e.signatureType) :
    (sign_order keccak e { price := price, size := size, side := .str "BUY", token_id := tok }
        salt raw).map (fun p => (p.makerAmount, p.takerAmount))
      = some (toString (pyInt (size * price * 1000000)), toString (pyInt (size * 1000000)))
    ∧ (sign_order keccak e { price := price, size := size, side := .str "SELL", token_id := tok }
        salt raw).map (fun p => (p.makerAmount, p.takerAmount))
      = some (toString (pyInt (size * 1000000)), toString (pyInt (size * price * 1000000)))
    ∧ (sign_order mockKeccak testEngine
        { price := 1 / 2, size := 10, side := .str "BUY", token_id := 5 } 0 0).map
        (fun p => (p.makerAmount, p.takerAmount)) = some ("5000000", "10000000")
    ∧ (sign_order mockKeccak testEngine
        { price := 1 / 2, size := 10, side := .str "SELL", token_id := 5 } 0 0).map
        (fun p => (p.makerAmount, p.takerAmount)) = some ("10000000", "5000000") := by
  have hbuy : isBuySide (.str "BUY") = true := by decide
  have hsell : isBuySide (.str "SELL") = false := by decide
  have hb' : packable (pyInt (size * price * 1000000)) (pyInt (size * 1000000))
      salt tok e.signatureType := by simpa [orderAmounts] using hb
  have hs' : packable (pyInt (size * 1000000)) (pyInt (size * price * 1000000))
      salt tok e.signatureType := by simpa [orderAmounts] using hs
  have hbc : orderAmounts (1 / 2 : ℚ) 10 (isBuySide (.str "BUY")) = (5000000, 10000000) := by
    rw [hbuy]; norm_num [orderAmounts, pyInt]
  have hsc : orderAmounts (1 / 2 : ℚ) 10 (isBuySide (.str "SELL")) = (10000000, 5000000) := by
    rw [hsell]; norm_num [orderAmounts, pyInt]
  refine ⟨?_, ?_, ?_, ?_⟩
  · rw [sign_order_eval keccak e _ salt raw (pyInt (size * price * 1000000))
      (pyInt (size * 1000000)) (by simp [orderAmounts, hbuy]) hb']
    simp
  · rw [sign_order_eval keccak e _ salt raw (pyInt (size * 1000000))
      (pyInt (size * price * 1000000)) (by simp [orderAmounts, hsell]) hs']
    simp
  · rw [sign_order_eval mockKeccak testEngine _ 0 0 5000000 10000000 hbc (by decide)]
    decide
  · rw [sign_order_eval mockKeccak testEngine _ 0 0 10000000 5000000 hsc (by decide)]
    decide

theorem C3_amounts_truncation_witness :
    packable (orderAmounts (1 / 2) 10 true).1 (orderAmounts (1 / 2) 10 true).2 0 5
      testEngine.signatureType
    ∧ packable (orderAmounts (1 / 2) 10 false).1 (orderAmounts (1 / 2) 10 false).2 0 5
      testEngine.signatureType
    ∧ (sign_order mockKeccak testEngine
        { price := 1 / 2, size := 10, side := .str "BUY", token_id := 5 } 0 0).map
        (fun p => (p.makerAmount, p.takerAmount))
      = some (toString (pyInt ((10 : ℚ) * (1 / 2) * 1000000)), toString (pyInt ((10 : ℚ) * 1000000))) := by
  have hb : packable (orderAmounts (1 / 2 : ℚ) 10 true).1 (orderAmounts (1 / 2 : ℚ) 10 true).2
      0 5 testEngine.signatureType := by
    rw [show orderAmounts (1 / 2 : ℚ) 10 true = (5000000, 10000000) from by
      norm_num [orderAmounts, pyInt]]
    decide
  have hs : packable (orderAmounts (1 / 2 : ℚ) 10 false).1 (orderAmounts (1 / 2 : ℚ) 10 false).2
      0 5 testEngine.signatureType := by
    rw [show orderAmounts (1 / 2 : ℚ) 10 false = (10000000, 5000000) from by
      norm_num [orderAmounts, pyInt]]
    decide
  exact ⟨hb, hs, (C3_amounts_truncation mockKeccak testEngine (1 / 2) 10 5 0 0 hb hs).1⟩

/-- C5 counterexample: a per-call intent with size 0 (non-positive, and both
scaled amounts zero) does not raise; sign_order produces a SignedOrder with
makerAmount "0" and takerAmount "0".  No ValidationError exists in the
source. -/
theorem C5_counterexample :
    (sign_order mockKeccak testEngine
        { price := 1 / 2, size := 0, side := .str "BUY", token_id := 5 } 0 0).map
      (fun p => (p.makerAmount, p.takerAmount)) = some ("0", "0") := by
  have hamt : orderAmounts (1 / 2 : ℚ) 0 (isBuySide (.str "BUY")) = (0, 0) := by
    rw [show isBuySide (PyVal.str "BUY") = true from by decide]
    norm_num [orderAmounts, pyInt]
  rw [sign_order_eval mockKeccak testEngine _ 0 0 0 0 hamt (by decide)]
  decide

/-- C5 amended: sign_order validates nothing: every intent whose scaled
amounts are representable in 32 bytes (0 ≤ amount < 2 ^ 256) produces a
SignedOrder, including non-positive price or size and zero amounts; the only
failure is the byte-conversion overflow outside that range. -/
theorem C5_no_validation (keccak : Bytes → Bytes) (e : Engine)
    (price size : ℚ) (v : PyVal) (tok salt raw : Nat)
    (hg : packable (orderAmounts price size (isBuySide v)).1
      (orderAmounts price size (isBuySide v)).2 salt tok e.signatureType) :
    (sign_order keccak e { price := price, size := size, side := v, token_id := tok }
      salt raw).isSome = true := by
  simp [sign_order, hg]

theorem C5_no_validation_witness :
    packable (orderAmounts (-3) 0 (isBuySide (.str "SELL"))).1
      (orderAmounts (-3) 0 (isBuySide (.str "SELL"))).2 0 5 testEngine.signatureType
    ∧ (sign_order mockKeccak testEngine
        { price := -3, size := 0, side := .str "SELL", token_id := 5 } 0 0).isSome = true := by
  have hg : packable (orderAmounts (-3 : ℚ) 0 (isBuySide (.str "SELL"))).1
      (orderAmounts (-3 : ℚ) 0 (isBuySide (.str "SELL"))).2 0 5 testEngine.signatureType := by
    rw [show isBuySide (PyVal.str "SELL") = false from by decide,
      show orderAmounts (-3 : ℚ) 0 false = (0, 0) from by norm_num [orderAmounts, pyInt]]
    decide
  exact ⟨hg, C5_no_validation mockKeccak testEngine (-3) 0 (.str "SELL") 5 0 0 hg⟩

/-- C6: the constructor runs the compatibility self-check before any engine
value is returned; whenever the reference digest differs from the fast digest
of the synthetic order — in particular under a reference schema whose fee
field is named differently — the constructor fails with the fatal error and no
caller can obtain an engine instance; nothing is deferred to signing time. -/
theorem C6_selfcheck_gates (keccak : Bytes → Bytes) (addrOfKey : Nat → Nat)
    (key : Nat) (funder : Option Nat) (st : Nat) (feeName : String) (salt raw : Nat)
    (hK32 : ∀ l, (keccak l).length = 32)
    (hsalt : salt < 2 ^ 256) (hst : st < 2 ^ 256)
    (hsep : selfCheckRefDigest keccak (mkEngine addrOfKey key funder st) feeName salt
      ≠ selfCheckFastDigest keccak (mkEngine addrOfKey key funder st) salt) :
    (mkEngineChecked keccak addrOfKey key funder st feeName salt raw).isOk = false
    ∧ ∀ e, mkEngineChecked keccak addrOfKey key funder st feeName salt raw ≠ Except.ok e := by
  have hamt : orderAmounts dummyArgs.price dummyArgs.size (isBuySide dummyArgs.side)
      = (500000, 1000000) := by
    rw [show isBuySide dummyArgs.side = true from by decide]
    norm_num [dummyArgs, orderAmounts, pyInt]
  have hg : packable 500000 1000000 salt dummyArgs.token_id
      (mkEngine addrOfKey key funder st).signatureType := by
    exact ⟨by norm_num, by norm_num, by norm_num, by norm_num, hsalt, by norm_num [dummyArgs], hst⟩
  have hsign := sign_order_eval keccak (mkEngine addrOfKey key funder st) dummyArgs salt raw
    500000 1000000 hamt hg
  have hrec := recoverAddress_none_of_digest_ne addrOfKey
    (selfCheckRefDigest keccak (mkEngine addrOfKey key funder st) feeName salt)
    (orderDigest keccak (mkEngine addrOfKey key funder st) dummyArgs salt)
    (mkEngine addrOfKey key funder st).privateKey raw
    (orderDigest_length keccak _ dummyArgs salt hK32) hsep
  have hver : verify_compatibility keccak addrOfKey (mkEngine addrOfKey key funder st)
      feeName salt raw = Except.error "CRITICAL: Hash mismatch" := by
    simp only [verify_compatibility, hsign, hrec]
  refine ⟨?_, fun e' hok => ?_⟩
  · simp [mkEngineChecked, hver, Except.isOk, Except.toBool]
  · simp [mkEngineChecked, hver] at hok

theorem C6_selfcheck_gates_witness :
    (∀ l, (mockKeccak l).length = 32) ∧ (7 : Nat) < 2 ^ 256 ∧ (0 : Nat) < 2 ^ 256
    ∧ selfCheckRefDigest mockKeccak (mkEngine (fun n => n) 1 Option.none 0) "feeRate" 7
      ≠ selfCheckFastDigest mockKeccak (mkEngine (fun n => n) 1 Option.none 0) 7
    ∧ (mkEngineChecked mockKeccak (fun n => n) 1 Option.none 0 "feeRate" 7 0).isOk = false := by
  have hsep : selfCheckRefDigest mockKeccak (mkEngine (fun n => n) 1 Option.none 0) "feeRate" 7
      ≠ selfCheckFastDigest mockKeccak (mkEngine (fun n => n) 1 Option.none 0) 7 := by
    rw [selfCheckRefDigest_eval, selfCheckFastDigest, orderDigest_dummy]
    decide
  exact ⟨mockKeccak_length, by norm_num, by norm_num, hsep,
    (C6_selfcheck_gates mockKeccak (fun n => n) 1 Option.none 0 "feeRate" 7 0
      mockKeccak_length (by norm_num) (by norm_num) hsep).1⟩

/-- C7: for every order sign_order produces, in both direct and delegated
(funder) signing modes, recovering an address from the pair of the order's
digest and the 65-byte signature yields exactly the signer address the engine
derived from the configured private key. -/
theorem C7_recovery (keccak : Bytes → Bytes) (addrOfKey : Nat → Nat) (e : Engine)
    (a : OrderArgs) (salt raw : Nat) (mI tI : Int)
    (hse : e.signerAddress = addrOfKey e.privateKey)
    (hK32 : ∀ l, (keccak l).length = 32)
    (hkey : e.privateKey < 2 ^ 256) (hraw : raw < 2)
    (hamt : orderAmounts a.price a.size (isBuySide a.side) = (mI, tI))
    (hg : packable mI tI salt a.token_id e.signatureType) :
    (sign_order keccak e a salt raw).bind
      (fun p => recoverAddress addrOfKey (orderDigest keccak e a salt) p.signature)
      = some e.signerAddress := by
  rw [sign_order_eval keccak e a salt raw mI tI hamt hg]
  show recoverAddress addrOfKey (orderDigest keccak e a salt)
    (normalizeV (signRecoverable e.privateKey (orderDigest keccak e a salt) raw))
    = some e.signerAddress
  rw [recover_normalize_sign addrOfKey e.privateKey _ raw
    (orderDigest_length keccak e a salt hK32) hkey hraw, hse]

theorem C7_recovery_witness :
    (mkEngine (fun n => n) 1 Option.none 0).signerAddress
      = (fun n => n) (mkEngine (fun n => n) 1 Option.none 0).privateKey
    ∧ (mkEngine (fun n => n) 1 (some 55) 2).signerAddress
      = (fun n => n) (mkEngine (fun n => n) 1 (some 55) 2).privateKey
    ∧ (sign_order mockKeccak (mkEngine (fun n => n) 1 Option.none 0)
        { price := 1 / 2, size := 10, side := .str "BUY", token_id := 5 } 3 0).bind
        (fun p => recoverAddress (fun n => n)
          (orderDigest mockKeccak (mkEngine (fun n => n) 1 Option.none 0)
            { price := 1 / 2, size := 10, side := .str "BUY", token_id := 5 } 3) p.signature)
      = some (mkEngine (fun n => n) 1 Option.none 0).signerAddress
    ∧ (sign_order mockKeccak (mkEngine (fun n => n) 1 (some 55) 2)
        { price := 1 / 2, size := 10, side := .str "BUY", token_id := 5 } 3 1).bind
        (fun p => recoverAddress (fun n => n)
          (orderDigest mockKeccak (mkEngine (fun n => n) 1 (some 55) 2)
            { price := 1 / 2, size := 10, side := .str "BUY", token_id := 5 } 3) p.signature)
      = some (mkEngine (fun n => n) 1 (some 55) 2).signerAddress := by
  have hamt : orderAmounts (1 / 2 : ℚ) 10 (isBuySide (.str "BUY")) = (5000000, 10000000) := by
    rw [show isBuySide (PyVal.str "BUY") = true from by decide]
    norm_num [orderAmounts, pyInt]
  have hg0 : packable 5000000 10000000 3 5 (0 : Nat) := by decide
  have hg2 : packable 5000000 10000000 3 5 (2 : Nat) := by decide
  exact ⟨rfl, rfl,
    C7_recovery mockKeccak (fun n => n) (mkEngine (fun n => n) 1 Option.none 0) _ 3 0
      5000000 10000000 rfl mockKeccak_length (by decide) (by decide) hamt hg0,
    C7_recovery mockKeccak (fun n => n) (mkEngine (fun n => n) 1 (some 55) 2) _ 3 1
      5000000 10000000 rfl mockKeccak_length (by decide) (by decide) hamt hg2⟩

/-- C8 counterexample: a buy order's side field in the output payload is the
string BUY, not the string 0 the claim states. -/
theorem C8_counterexample :
    (sign_order mockKeccak testEngine
        { price := 1 / 2, size := 10, side := .str "BUY", token_id := 5 } 0 0).map
      SignedPayload.side = some "BUY"
    ∧ some ("BUY" : String) ≠ some "0" := by
  have hamt : orderAmounts (1 / 2 : ℚ) 10 (isBuySide (.str "BUY")) = (5000000, 10000000) := by
    rw [show isBuySide (PyVal.str "BUY") = true from by decide]
    norm_num [orderAmounts, pyInt]
  rw [sign_order_eval mockKeccak testEngine _ 0 0 5000000 10000000 hamt (by decide)]
  exact ⟨by decide, by decide⟩

/-- C8 amended: the SignedOrder output's side field is the string BUY for every
buy order and the string SELL for every sell order (the struct word packs 0 or
1, but the output field is the word, not the digit). -/
theorem C8_side_strings (keccak : Bytes → Bytes) (e : Engine) (a : OrderArgs)
    (salt raw : Nat) (mI tI : Int)
    (hamt : orderAmounts a.price a.size (isBuySide a.side) = (mI, tI))
    (hg : packable mI tI salt a.token_id e.signatureType) :
    (sign_order keccak e a salt raw).map SignedPayload.side
      = some (if isBuySide a.side then "BUY" else "SELL") := by
  rw [sign_order_eval keccak e a salt raw mI tI hamt hg]
  rfl

theorem C8_side_strings_witness :
    orderAmounts (1 / 2 : ℚ) 10 (isBuySide (PyVal.str "SELL")) = (10000000, 5000000)
    ∧ (sign_order mockKeccak testEngine
        { price := 1 / 2, size := 10, side := .str "SELL", token_id := 5 } 0 0).map
      SignedPayload.side = some (if isBuySide (PyVal.str "SELL") then "BUY" else "SELL") := by
  have hamt : orderAmounts (1 / 2 : ℚ) 10 (isBuySide (.str "SELL")) = (10000000, 5000000) := by
    rw [show isBuySide (PyVal.str "SELL") = false from by decide]
    norm_num [orderAmounts, pyInt]
  exact ⟨hamt,
    C8_side_strings mockKeccak testEngine _ 0 0 10000000 5000000 hamt (by decide)⟩

/-- C9: the final byte of every signature sign_order emits is 27 when the raw
recovery id of the curve primitive is 0 and 28 when it is 1; the raw id never
appears unnormalized in the output. -/
theorem C9_v_normalization (keccak : Bytes → Bytes) (e : Engine) (a : OrderArgs)
    (salt raw : Nat) (mI tI : Int)
    (hK32 : ∀ l, (keccak l).length = 32) (hraw : raw < 2)
    (hamt : orderAmounts a.price a.size (isBuySide a.side) = (mI, tI))
    (hg : packable mI tI salt a.token_id e.signatureType) :
    (sign_order keccak e a salt raw).map (fun p => p.signature.getD 64 0)
      = some (if raw = 0 then 27 else 28) := by
  have hd32 := orderDigest_length keccak e a salt hK32
  rw [sign_order_eval keccak e a salt raw mI tI hamt hg]
  show some ((normalizeV (signRecoverable e.privateKey (orderDigest keccak e a salt) raw)).getD 64 0)
    = some (if raw = 0 then 27 else 28)
  rw [normalizeV_signRecoverable _ _ _ hd32 (by omega),
    getD64 _ _ _ hd32 (length_beBytes 32 _)]
  have hcase : raw = 0 ∨ raw = 1 := by omega
  obtain h | h := hcase <;> simp [h]

theorem C9_v_normalization_witness :
    orderAmounts (1 / 2 : ℚ) 10 (isBuySide (PyVal.str "BUY")) = (5000000, 10000000)
    ∧ (sign_order mockKeccak testEngine
        { price := 1 / 2, size := 10, side := .str "BUY", token_id := 5 } 0 1).map
        (fun p => p.signature.getD 64 0) = some (if 1 = 0 then 27 else 28) := by
  have hamt : orderAmounts (1 / 2 : ℚ) 10 (isBuySide (.str "BUY")) = (5000000, 10000000) := by
    rw [show isBuySide (PyVal.str "BUY") = true from by decide]
    norm_num [orderAmounts, pyInt]
  exact ⟨hamt,
    C9_v_normalization mockKeccak testEngine _ 0 1 5000000 10000000
      mockKeccak_length (by norm_num) hamt (by decide)⟩

/-- C10 (implicit): every side value that is neither the integer 0 nor a string
uppercasing to BUY — for example HOLD, buy2, the integer 2, or None — is not
rejected but silently treated as Sell, with the Sell amount assignment. -/
theorem C10_fallthrough_sell (keccak : Bytes → Bytes) (e : Engine)
    (price size : ℚ) (v : PyVal) (tok salt raw : Nat)
    (hv : isBuySide v = false)
    (hg : packable (pyInt (size * 1000000)) (pyInt (size * price * 1000000))
      salt tok e.signatureType) :
    (sign_order keccak e { price := price, size := size, side := v, token_id := tok }
        salt raw).map (fun p => (p.side, p.makerAmount, p.takerAmount))
      = some ("SELL", toString (pyInt (size * 1000000)), toString (pyInt (size * price * 1000000)))
    ∧ isBuySide (.str "HOLD") = false ∧ isBuySide (.str "buy2") = false
    ∧ isBuySide (.int 2) = false ∧ isBuySide PyVal.pyNone = false := by
  refine ⟨?_, by decide, by decide, by decide, by decide⟩
  rw [sign_order_eval keccak e _ salt raw (pyInt (size * 1000000))
    (pyInt (size * price * 1000000)) (by simp [orderAmounts, hv]) hg]
  simp [hv]

theorem C10_fallthrough_sell_witness :
    isBuySide (PyVal.str "HOLD") = false
    ∧ (sign_order mockKeccak testEngine
        { price := 1 / 2, size := 10, side := .str "HOLD", token_id := 5 } 0 0).map
        (fun p => (p.side, p.makerAmount, p.takerAmount))
      = some ("SELL", toString (pyInt ((10 : ℚ) * 1000000)),
          toString (pyInt ((10 : ℚ) * (1 / 2) * 1000000))) := by
  have hv : isBuySide (PyVal.str "HOLD") = false := by decide
  have hg : packable (pyInt ((10 : ℚ) * 1000000)) (pyInt ((10 : ℚ) * (1 / 2) * 1000000))
      0 5 testEngine.signatureType := by
    rw [show pyInt ((10 : ℚ) * 1000000) = 10000000 from by norm_num [pyInt],
      show pyInt ((10 : ℚ) * (1 / 2) * 1000000) = 5000000 from by norm_num [pyInt]]
    decide
  exact ⟨hv,
    (C10_fallthrough_sell mockKeccak testEngine (1 / 2) 10 (.str "HOLD") 5 0 0 hv hg).1⟩

end FastSigner
